import Mathlib

/-!
# Verification of the deus-stun-server-ts core

Shallow embedding of the STUN Binding server's core logic (message decoder,
XOR-MAPPED-ADDRESS attribute encoder, response assembler, admission-control
rate limiter) as Lean definitions, together with theorems settling the
specification's claims about them.

Bytes are modelled as `Nat` values (< 256 where the source guarantees it);
a Node `Buffer` is a `List Nat`.  JavaScript numbers used as counters and
millisecond instants are modelled as `Nat` (`Date.now()` is non-negative);
configuration values that may be negative are modelled as `Int`.
-/

/-- `STUN_MAGIC_COOKIE` constant from the source. -/
def STUN_MAGIC_COOKIE : Nat := 0x2112A442

/-- `STUN_BINDING_REQUEST` constant from the source. -/
def STUN_BINDING_REQUEST : Nat := 0x0001

/-- `STUN_BINDING_RESPONSE` constant from the source. -/
def STUN_BINDING_RESPONSE : Nat := 0x0101

/-- `STUN_ATTR_XOR_MAPPED_ADDRESS` constant from the source. -/
def STUN_ATTR_XOR_MAPPED_ADDRESS : Nat := 0x0020

/-- Big-endian 16-bit write (`Buffer.writeUInt16BE`): the two bytes stored. -/
def u16BE (v : Nat) : List Nat := [v / 256 % 256, v % 256]

/-- Big-endian 32-bit write (`Buffer.writeUInt32BE`): the four bytes stored. -/
def u32BE (v : Nat) : List Nat :=
  [v / 2 ^ 24 % 256, v / 2 ^ 16 % 256, v / 2 ^ 8 % 256, v % 256]

/-- Big-endian 16-bit read (`Buffer.readUInt16BE`). -/
def readU16BE (data : List Nat) (off : Nat) : Nat :=
  data.getD off 0 * 256 + data.getD (off + 1) 0

/-- Big-endian 32-bit read (`Buffer.readUInt32BE`). -/
def readU32BE (data : List Nat) (off : Nat) : Nat :=
  data.getD off 0 * 2 ^ 24 + data.getD (off + 1) 0 * 2 ^ 16 +
    data.getD (off + 2) 0 * 2 ^ 8 + data.getD (off + 3) 0

/-- In-place XOR of one buffer byte, `buf[i] ^= v` on a `Uint8Array`
(an out-of-range index is a no-op, as in JavaScript). -/
def xorSet (buf : List Nat) (i : Nat) (v : Nat) : List Nat :=
  buf.set i (Nat.xor (buf.getD i 0) v)

/-- The `ParsedStunMessage` / `StunMessage` interface shared by all variants. -/
structure StunMessage where
  type : Nat
  length : Nat
  transactionId : List Nat
  attributes : List Nat
deriving Repr, DecidableEq

/-- `parseStunMessage` — identical in `stun-server.ts` and both `unnamed`
variants (`slice` and `subarray` agree as reads).  All failures are `none`,
mirroring the source's `null`. -/
def parseStunMessage (data : List Nat) : Option StunMessage :=
  if data.length < 20 then none
  else
    let type := readU16BE data 0
    let len := readU16BE data 2
    let cookie := readU32BE data 4
    let transactionId := (data.drop 8).take 12
    if cookie ≠ STUN_MAGIC_COOKIE then none
    else if data.length ≠ 20 + len then none
    else some ⟨type, len, transactionId, data.drop 20⟩

/-- The spec's decode-error taxonomy. The source collapses all three failures
to `null`; the labels come from the spec (§4.1/§7), attached to the source's
three guard sites in the source's guard order. -/
inductive DecodeError where
  | TooShort
  | BadCookie
  | LengthMismatch
deriving Repr, DecidableEq

/-- `parseStunMessage` with the spec's error labels attached to the source's
guard sites, preserving the source's guard order (length, then cookie, then
declared-length consistency). -/
def decode (data : List Nat) : Except DecodeError StunMessage :=
  if data.length < 20 then .error .TooShort
  else
    let type := readU16BE data 0
    let len := readU16BE data 2
    let cookie := readU32BE data 4
    let transactionId := (data.drop 8).take 12
    if cookie ≠ STUN_MAGIC_COOKIE then .error .BadCookie
    else if data.length ≠ 20 + len then .error .LengthMismatch
    else .ok ⟨type, len, transactionId, data.drop 20⟩

/-- `createXorMappedAddress` from `src/unnamed/part_001` (and the identical
copy in `src/unnamed/part_000`): the variant that XORs the address with only
the first four transaction-id bytes (`i < transactionId.length && i < 4`).
The 12-byte buffer is assembled from its written fields; `addrBuf.copy(buf, 8)`
copies at most 4 bytes into the zero-initialised tail. -/
def createXorMappedAddress (family port : Nat) (address : List Nat)
    (transactionId : List Nat) : List Nat :=
  let xorPort := Nat.xor port (STUN_MAGIC_COOKIE >>> 16)
  let addrBuf0 := address.map (fun b => b % 256)
  let addrBuf1 := (List.range 4).foldl
    (fun buf i => xorSet buf i ((STUN_MAGIC_COOKIE >>> (24 - i * 8)) &&& 0xFF))
    addrBuf0
  let addrBuf2 := (List.range (min transactionId.length 4)).foldl
    (fun buf i => xorSet buf i (transactionId.getD i 0)) addrBuf1
  u16BE STUN_ATTR_XOR_MAPPED_ADDRESS ++ u16BE 8 ++ [0, family] ++
    u16BE xorPort ++ ((addrBuf2 ++ List.replicate 4 0).take 4)

namespace StunServerTs

/-- `createXorMappedAddress` from `src/stun-server.ts`: the variant whose
transaction-id loop runs over all 12 bytes cyclically
(`addrBuf[i % 4] ^= transactionId[i]` for `i < transactionId.length`).
The returned `buf.slice(0, 12)` is assembled from its written fields. -/
def createXorMappedAddress (family port : Nat) (address : List Nat)
    (transactionId : List Nat) : List Nat :=
  let xorPort := Nat.xor port (STUN_MAGIC_COOKIE >>> 16)
  let addrBuf0 := address.map (fun b => b % 256)
  let addrBuf1 := (List.range 4).foldl
    (fun buf i => xorSet buf i ((STUN_MAGIC_COOKIE >>> (24 - i * 8)) &&& 0xFF))
    addrBuf0
  let addrBuf2 := (List.range transactionId.length).foldl
    (fun buf i => xorSet buf (i % 4) (transactionId.getD i 0)) addrBuf1
  u16BE STUN_ATTR_XOR_MAPPED_ADDRESS ++ u16BE 8 ++ [0, family] ++
    u16BE xorPort ++ ((addrBuf2 ++ List.replicate 4 0).take 4)

end StunServerTs

/-- `createStunResponse` — identical in all variants.  `transactionId.copy(header, 8)`
copies at most 12 bytes into the zero-initialised header. -/
def createStunResponse (type : Nat) (transactionId : List Nat)
    (attributes : List (List Nat)) : List Nat :=
  let attrBuf := attributes.flatten
  let bodyLength := attrBuf.length
  let header := u16BE type ++ u16BE bodyLength ++ u32BE STUN_MAGIC_COOKIE ++
    (transactionId.take 12 ++ List.replicate (12 - transactionId.length) 0)
  header ++ attrBuf

/-- State of the `RateLimiter` class from `src/unnamed/part_001` /
`src/unnamed/part_000`.  The `setTimeout` scheduled by `triggerPause` is
modelled by `pauseExpiry`: the instant at which the un-pause callback fires. -/
structure RateLimiter where
  timestamps : List Nat
  isPaused : Bool
  pauseExpiry : Option Nat
  maxRequests : Nat
  timeWindow : Nat
  pauseDuration : Nat
deriving Repr, DecidableEq

/-- The `RateLimiter` constructor of `src/unnamed/part_001` (no validation):
empty timestamps, not paused. -/
def RateLimiter.init (maxRequests timeWindowMs pauseDurationMs : Nat) : RateLimiter :=
  { timestamps := []
    isPaused := false
    pauseExpiry := none
    maxRequests := maxRequests
    timeWindow := timeWindowMs
    pauseDuration := pauseDurationMs }

/-- `RateLimiter.check` with `Date.now()` passed explicitly as `now`.
Returns the boolean result and the updated state.  Tripping the limit runs
`triggerPause`: set `isPaused` and schedule the un-pause callback
`pauseDuration` later (`pauseExpiry`). -/
def RateLimiter.check (r : RateLimiter) (now : Nat) : Bool × RateLimiter :=
  if r.isPaused then (false, r)
  else
    let ts := (r.timestamps.filter fun t => now - t < r.timeWindow) ++ [now]
    if ts.length > r.maxRequests then
      (false, { r with timestamps := ts, isPaused := true,
                       pauseExpiry := some (now + r.pauseDuration) })
    else
      (true, { r with timestamps := ts })

/-- The body of the `setTimeout` callback scheduled by `triggerPause`:
`isPaused = false; timestamps = []`.  In the model it fires at `pauseExpiry`. -/
def RateLimiter.unpause (r : RateLimiter) : RateLimiter :=
  { r with isPaused := false, timestamps := [], pauseExpiry := none }

/-- Run a sequence of `check` calls at the given instants, collecting the
results and the final state. -/
def RateLimiter.checkRun (r : RateLimiter) : List Nat → List Bool × RateLimiter
  | [] => ([], r)
  | t :: ts =>
    let p := r.check t
    let q := p.2.checkRun ts
    (p.1 :: q.1, q.2)

/-- The `RateLimiter` constructor of the config-driven variant in
`src/unnamed/part_000`: throws (`Except.error`) when any of the three
configuration values is `<= 0`, otherwise constructs the limiter.
Configuration values may be negative, hence `Int`. -/
def RateLimiter.construct (maxRequests timeWindowMs pauseDurationMs : Int) :
    Except String RateLimiter :=
  if maxRequests ≤ 0 then .error "maxRequests must be greater than 0"
  else if timeWindowMs ≤ 0 then .error "timeWindowMs must be greater than 0"
  else if pauseDurationMs ≤ 0 then .error "pauseDurationMs must be greater than 0"
  else .ok (RateLimiter.init maxRequests.toNat timeWindowMs.toNat pauseDurationMs.toNat)

/-! ## Helper lemmas -/

lemma exists_len_four {l : List Nat} (h : l.length = 4) :
    ∃ b0 b1 b2 b3, l = [b0, b1, b2, b3] := by
  rcases l with _ | ⟨b0, _ | ⟨b1, _ | ⟨b2, _ | ⟨b3, _ | ⟨b4, t⟩⟩⟩⟩⟩ <;>
    simp only [List.length_nil, List.length_cons] at h
  · omega
  · omega
  · omega
  · omega
  · exact ⟨b0, b1, b2, b3, rfl⟩
  · omega

lemma cookie_hi : STUN_MAGIC_COOKIE >>> 16 = 8466 := by decide

lemma cookie_b0 : STUN_MAGIC_COOKIE >>> 24 &&& 255 = 33 := by decide

lemma cookie_b1 : STUN_MAGIC_COOKIE >>> 16 &&& 255 = 18 := by decide

lemma cookie_b1_lit : (8466 : Nat) &&& 255 = 18 := by decide

lemma cookie_b2 : STUN_MAGIC_COOKIE >>> 8 &&& 255 = 164 := by decide

lemma cookie_b3 : STUN_MAGIC_COOKIE &&& 255 = 66 := by decide

/-- The 12 bytes produced by the first-four-transaction-id-bytes encoder,
fully explicit for a four-octet address. -/
lemma createXorMappedAddress_eq (family port a0 a1 a2 a3 : Nat) (t : List Nat)
    (ht : 4 ≤ t.length) :
    createXorMappedAddress family port [a0, a1, a2, a3] t =
      [0, 32, 0, 8, 0, family,
       Nat.xor port 8466 / 256 % 256, Nat.xor port 8466 % 256,
       Nat.xor (Nat.xor (a0 % 256) 33) (t.getD 0 0),
       Nat.xor (Nat.xor (a1 % 256) 18) (t.getD 1 0),
       Nat.xor (Nat.xor (a2 % 256) 164) (t.getD 2 0),
       Nat.xor (Nat.xor (a3 % 256) 66) (t.getD 3 0)] := by
  have hmin : min t.length 4 = 4 := by omega
  have hr4 : List.range 4 = [0, 1, 2, 3] := rfl
  unfold createXorMappedAddress
  rw [hmin, hr4]
  norm_num [xorSet, u16BE, List.getD, cookie_hi, cookie_b0, cookie_b1,
    cookie_b1_lit, cookie_b2, cookie_b3, STUN_ATTR_XOR_MAPPED_ADDRESS]

/-- C1 (amended, counterexample `createXorMappedAddress_cyclic_counterexample`):
for the `part_001`/`part_000` encoder, the output is exactly the 12 bytes
`0x0020`, length `8`, reserved `0x00`, family `0x01`, `port XOR 0x2112`
big-endian, then `ipv4Octets[i] XOR cookieByte[i] XOR transactionId[i]` for
`i` in `0..3` — only the first four transaction-id bytes participate.  The
`stun-server.ts` encoder instead folds all 12 transaction-id bytes in
cyclically. -/
theorem createXorMappedAddress_first_four_layout
    (port : Nat) (a t : List Nat) (hp : port < 65536)
    (ha : a.length = 4) (hav : ∀ x ∈ a, x < 256) (ht : t.length = 12) :
    createXorMappedAddress 1 port a t =
      [0x00, 0x20, 0x00, 0x08, 0x00, 0x01,
       Nat.xor port 0x2112 / 256 % 256, Nat.xor port 0x2112 % 256,
       Nat.xor (Nat.xor (a.getD 0 0) 0x21) (t.getD 0 0),
       Nat.xor (Nat.xor (a.getD 1 0) 0x12) (t.getD 1 0),
       Nat.xor (Nat.xor (a.getD 2 0) 0xA4) (t.getD 2 0),
       Nat.xor (Nat.xor (a.getD 3 0) 0x42) (t.getD 3 0)] := by
  obtain ⟨b0, b1, b2, b3, rfl⟩ := exists_len_four ha
  have h0 : b0 < 256 := hav _ (by simp)
  have h1 : b1 < 256 := hav _ (by simp)
  have h2 : b2 < 256 := hav _ (by simp)
  have h3 : b3 < 256 := hav _ (by simp)
  rw [createXorMappedAddress_eq _ _ _ _ _ _ t (by omega)]
  simp [List.getD, Nat.mod_eq_of_lt, h0, h1, h2, h3]

/-- C1 witness: the spec's end-to-end vector `203.0.113.7:54321` with
transaction id `0x00112233445566778899AABB`. -/
theorem createXorMappedAddress_first_four_layout_witness :
    createXorMappedAddress 1 54321 [203, 0, 113, 7]
        [0x00, 0x11, 0x22, 0x33, 0x44, 0x55, 0x66, 0x77, 0x88, 0x99, 0xAA, 0xBB] =
      [0, 32, 0, 8, 0, 1, 245, 35, 234, 3, 247, 118] := by
  have h := createXorMappedAddress_first_four_layout 54321 [203, 0, 113, 7]
    [0x00, 0x11, 0x22, 0x33, 0x44, 0x55, 0x66, 0x77, 0x88, 0x99, 0xAA, 0xBB]
    (by decide) (by decide) (by decide) (by decide)
  rw [h]
  decide

/-- C1 counterexample: the `stun-server.ts` encoder does not satisfy the
claimed formula — with a transaction id whose byte 4 is `1` (bytes `0..3`
zero), its output differs from the claimed bytes, because byte 4 is folded
cyclically into address byte 0. -/
theorem createXorMappedAddress_cyclic_counterexample :
    StunServerTs.createXorMappedAddress 1 0 [0, 0, 0, 0]
        [0, 0, 0, 0, 1, 0, 0, 0, 0, 0, 0, 0] ≠
      [0x00, 0x20, 0x00, 0x08, 0x00, 0x01, 0x21, 0x12,
       0x21, 0x12, 0xA4, 0x42] := by decide

/-- C9: `xorPort` stays a `uint16` for every `uint16` port, and the encoder
always returns exactly 12 bytes on its interface precondition. -/
theorem createXorMappedAddress_total_safe :
    (∀ port, port < 65536 → Nat.xor port (STUN_MAGIC_COOKIE >>> 16) < 65536) ∧
    (∀ family port a t, a.length = 4 → t.length = 12 →
      (createXorMappedAddress family port a t).length = 12) := by
  constructor
  · intro port hp
    rw [cookie_hi]
    have h1 : port < 2 ^ 16 := by omega
    have h2 : Nat.xor port 8466 < 2 ^ 16 := Nat.xor_lt_two_pow h1 (by norm_num)
    omega
  · intro family port a t ha ht
    obtain ⟨b0, b1, b2, b3, rfl⟩ := exists_len_four ha
    rw [createXorMappedAddress_eq _ _ _ _ _ _ t (by omega)]
    rfl

/-- C9 witness at a concrete port, address and transaction id. -/
theorem createXorMappedAddress_total_safe_witness :
    Nat.xor 54321 (STUN_MAGIC_COOKIE >>> 16) < 65536 ∧
    (createXorMappedAddress 7 54321 [203, 0, 113, 7]
      [0, 17, 34, 51, 68, 85, 102, 119, 136, 153, 170, 187]).length = 12 :=
  ⟨createXorMappedAddress_total_safe.1 54321 (by decide),
   createXorMappedAddress_total_safe.2 7 54321 [203, 0, 113, 7]
     [0, 17, 34, 51, 68, 85, 102, 119, 136, 153, 170, 187] (by decide) (by decide)⟩

/-- C8 counterexample: two transaction ids differing in exactly one byte
(byte 4) give identical outputs from the `part_001`/`part_000` encoder. -/
theorem createXorMappedAddress_tid_tail_counterexample :
    createXorMappedAddress 1 80 [1, 2, 3, 4]
        [9, 9, 9, 9, 0, 0, 0, 0, 0, 0, 0, 0] =
      createXorMappedAddress 1 80 [1, 2, 3, 4]
        [9, 9, 9, 9, 1, 0, 0, 0, 0, 0, 0, 0] ∧
    ¬ ([9, 9, 9, 9, 0, 0, 0, 0, 0, 0, 0, 0] =
        ([9, 9, 9, 9, 1, 0, 0, 0, 0, 0, 0, 0] : List Nat)) := by decide

/-- C8 (amended): the encoder is a pure function; changing the port (as a
`uint16`), any single address octet, or any single one of the FIRST FOUR
transaction-id bytes changes the output, while the last eight transaction-id
bytes never affect the output. -/
theorem createXorMappedAddress_sensitivity :
    (∀ family port a t family2 port2 a2 t2, family = family2 → port = port2 →
        a = a2 → t = t2 →
        createXorMappedAddress family port a t =
          createXorMappedAddress family2 port2 a2 t2) ∧
    (∀ family p q a t, p < 65536 → q < 65536 → p ≠ q →
        createXorMappedAddress family p a t ≠
          createXorMappedAddress family q a t) ∧
    (∀ family p a b t i, a.length = 4 → b.length = 4 → i < 4 →
        (∀ x ∈ a, x < 256) → (∀ x ∈ b, x < 256) → t.length = 12 →
        a.getD i 0 ≠ b.getD i 0 →
        createXorMappedAddress family p a t ≠
          createXorMappedAddress family p b t) ∧
    (∀ family p a t u i, a.length = 4 → t.length = 12 → u.length = 12 →
        i < 4 → t.getD i 0 ≠ u.getD i 0 →
        createXorMappedAddress family p a t ≠
          createXorMappedAddress family p a u) ∧
    (∀ family p a t u, a.length = 4 → t.length = 12 → u.length = 12 →
        (∀ j, j < 4 → t.getD j 0 = u.getD j 0) →
        createXorMappedAddress family p a t =
          createXorMappedAddress family p a u) := by
  refine ⟨?_, ?_, ?_, ?_, ?_⟩
  · intro family port a t family2 port2 a2 t2 h1 h2 h3 h4
    rw [h1, h2, h3, h4]
  · intro family p q a t hp hq hne h
    unfold createXorMappedAddress at h
    simp only [u16BE, cookie_hi, List.cons_append, List.nil_append,
      List.cons.injEq, and_true, true_and] at h
    have hxp : Nat.xor p 8466 < 2 ^ 16 := Nat.xor_lt_two_pow (by omega) (by norm_num)
    have hxq : Nat.xor q 8466 < 2 ^ 16 := Nat.xor_lt_two_pow (by omega) (by norm_num)
    have heq : Nat.xor p 8466 = Nat.xor q 8466 := by omega
    exact hne (Nat.xor_left_inj.mp heq)
  · intro family p a b t i ha hb hi hav hbv ht hdiff h
    obtain ⟨a0, a1, a2, a3, rfl⟩ := exists_len_four ha
    obtain ⟨b0, b1, b2, b3, rfl⟩ := exists_len_four hb
    have e0 : a0 < 256 := hav _ (by simp)
    have e1 : a1 < 256 := hav _ (by simp)
    have e2 : a2 < 256 := hav _ (by simp)
    have e3 : a3 < 256 := hav _ (by simp)
    have f0 : b0 < 256 := hbv _ (by simp)
    have f1 : b1 < 256 := hbv _ (by simp)
    have f2 : b2 < 256 := hbv _ (by simp)
    have f3 : b3 < 256 := hbv _ (by simp)
    rw [createXorMappedAddress_eq _ _ _ _ _ _ t (by omega),
        createXorMappedAddress_eq _ _ _ _ _ _ t (by omega)] at h
    simp only [List.cons.injEq, and_true, true_and] at h
    interval_cases i <;> simp only [List.getD_cons_zero, List.getD_cons_succ] at hdiff
    · exact hdiff (by
        have := Nat.xor_left_inj.mp h.1
        have := Nat.xor_left_inj.mp this
        omega)
    · exact hdiff (by
        have := Nat.xor_left_inj.mp h.2.1
        have := Nat.xor_left_inj.mp this
        omega)
    · exact hdiff (by
        have := Nat.xor_left_inj.mp h.2.2.1
        have := Nat.xor_left_inj.mp this
        omega)
    · exact hdiff (by
        have := Nat.xor_left_inj.mp h.2.2.2
        have := Nat.xor_left_inj.mp this
        omega)
  · intro family p a t u i ha ht hu hi hdiff h
    obtain ⟨a0, a1, a2, a3, rfl⟩ := exists_len_four ha
    rw [createXorMappedAddress_eq _ _ _ _ _ _ t (by omega),
        createXorMappedAddress_eq _ _ _ _ _ _ u (by omega)] at h
    simp only [List.cons.injEq, and_true, true_and] at h
    interval_cases i
    · exact hdiff (Nat.xor_right_inj.mp h.1)
    · exact hdiff (Nat.xor_right_inj.mp h.2.1)
    · exact hdiff (Nat.xor_right_inj.mp h.2.2.1)
    · exact hdiff (Nat.xor_right_inj.mp h.2.2.2)
  · intro family p a t u ha ht hu hag
    obtain ⟨a0, a1, a2, a3, rfl⟩ := exists_len_four ha
    rw [createXorMappedAddress_eq _ _ _ _ _ _ t (by omega),
        createXorMappedAddress_eq _ _ _ _ _ _ u (by omega)]
    rw [hag 0 (by omega), hag 1 (by omega), hag 2 (by omega), hag 3 (by omega)]


/-- C8 witness: a concrete instantiation of the port-sensitivity conjunct. -/
theorem createXorMappedAddress_sensitivity_witness :
    createXorMappedAddress 1 80 [1, 2, 3, 4] [9, 9, 9, 9, 0, 0, 0, 0, 0, 0, 0, 0] ≠
      createXorMappedAddress 1 81 [1, 2, 3, 4] [9, 9, 9, 9, 0, 0, 0, 0, 0, 0, 0, 0] :=
  createXorMappedAddress_sensitivity.2.1 1 80 81 [1, 2, 3, 4]
    [9, 9, 9, 9, 0, 0, 0, 0, 0, 0, 0, 0] (by decide) (by decide) (by decide)

/-- C5: every datagram of length at least 20, with the magic cookie at
bytes 4-7 and a consistent declared body length, decodes successfully with
the transaction id equal to bytes 8-19 and the attributes equal to the
bytes from offset 20 on. -/
theorem parseStunMessage_wellformed (data : List Nat)
    (hlen : 20 ≤ data.length) (hcookie : readU32BE data 4 = STUN_MAGIC_COOKIE)
    (hdecl : data.length = 20 + readU16BE data 2) :
    parseStunMessage data =
      some ⟨readU16BE data 0, readU16BE data 2, (data.drop 8).take 12,
            data.drop 20⟩ := by
  unfold parseStunMessage
  rw [if_neg (by omega), if_neg (by simp [hcookie]), if_neg (by omega)]

/-- C5 witness: a concrete 20-byte Binding Request. -/
theorem parseStunMessage_wellformed_witness :
    parseStunMessage [0, 1, 0, 0, 33, 18, 164, 66,
      1, 2, 3, 4, 5, 6, 7, 8, 9, 10, 11, 12] =
      some ⟨1, 0, [1, 2, 3, 4, 5, 6, 7, 8, 9, 10, 11, 12], []⟩ := by
  have h := parseStunMessage_wellformed
    [0, 1, 0, 0, 33, 18, 164, 66, 1, 2, 3, 4, 5, 6, 7, 8, 9, 10, 11, 12]
    (by decide) (by decide) (by decide)
  rw [h]
  decide

/-- C6 counterexample: a 10-byte datagram whose bytes 4-7 differ from the
magic cookie decodes to `TooShort`, not `BadCookie` — the length guard runs
first in the source. -/
theorem decode_short_counterexample :
    readU32BE [0, 0, 0, 0, 0, 0, 0, 0, 0, 0] 4 ≠ STUN_MAGIC_COOKIE ∧
    decode [0, 0, 0, 0, 0, 0, 0, 0, 0, 0] = .error .TooShort ∧
    decode [0, 0, 0, 0, 0, 0, 0, 0, 0, 0] ≠ .error .BadCookie := by
  refine ⟨by decide, rfl, ?_⟩
  intro h
  exact absurd (Except.error.inj h) (by decide)

/-- C6 (amended): a datagram of length at least 20 whose bytes 4-7 differ
from the magic cookie decodes to `BadCookie` regardless of every other field
(in particular regardless of a mismatched declared length); a datagram
shorter than 20 bytes decodes to `TooShort` even when its bytes 4-7 differ
from the cookie. -/
theorem decode_cookie_errors (data : List Nat) :
    (20 ≤ data.length → readU32BE data 4 ≠ STUN_MAGIC_COOKIE →
      decode data = .error .BadCookie) ∧
    (data.length < 20 → decode data = .error .TooShort) := by
  constructor
  · intro hlen hcookie
    unfold decode
    rw [if_neg (by omega), if_pos (by simpa using hcookie)]
  · intro hlen
    unfold decode
    rw [if_pos hlen]

/-- C6 witness: concrete instantiations of both conjuncts. -/
theorem decode_cookie_errors_witness :
    decode [0, 1, 0, 0, 9, 9, 9, 9, 1, 2, 3, 4, 5, 6, 7, 8, 9, 10, 11, 12] =
      .error .BadCookie ∧
    decode [5, 5, 5] = .error .TooShort :=
  ⟨(decode_cookie_errors
      [0, 1, 0, 0, 9, 9, 9, 9, 1, 2, 3, 4, 5, 6, 7, 8, 9, 10, 11, 12]).1
      (by decide) (by decide),
   (decode_cookie_errors [5, 5, 5]).2 (by decide)⟩

/-- The assembled response, fully explicit for a 12-byte transaction id. -/
lemma createStunResponse_eq (type : Nat) (tid : List Nat)
    (attrs : List (List Nat)) (htid : tid.length = 12) :
    createStunResponse type tid attrs =
      u16BE type ++ u16BE attrs.flatten.length ++ [33, 18, 164, 66] ++
        tid ++ attrs.flatten := by
  unfold createStunResponse
  have hc : u32BE STUN_MAGIC_COOKIE = [33, 18, 164, 66] := by decide
  have htake : tid.take 12 = tid := by
    rw [← htid]
    exact List.take_length tid
  rw [hc, htid, htake]
  simp

/-- C7: the response is a 20-byte header — message type, body length equal
to the sum of the attribute byte-lengths, the fixed magic cookie, the
transaction id copied verbatim — followed by the attribute bytes in order;
a Binding Response built from one 12-byte attribute has type `0x0101`, the
request's transaction id and body length 12. -/
theorem createStunResponse_layout (type : Nat) (tid : List Nat)
    (attrs : List (List Nat)) (htid : tid.length = 12)
    (hbody : (attrs.map List.length).sum < 65536) :
    createStunResponse type tid attrs =
      u16BE type ++ u16BE ((attrs.map List.length).sum) ++ [33, 18, 164, 66] ++
        tid ++ attrs.flatten ∧
    readU16BE (createStunResponse type tid attrs) 2 =
      (attrs.map List.length).sum ∧
    (∀ attr : List Nat, attr.length = 12 →
      createStunResponse STUN_BINDING_RESPONSE tid [attr] =
        [1, 1, 0, 12, 33, 18, 164, 66] ++ tid ++ attr) := by
  have hflat : attrs.flatten.length = (attrs.map List.length).sum := by
    simp [List.length_flatten]
  refine ⟨?_, ?_, ?_⟩
  · rw [createStunResponse_eq type tid attrs htid, hflat]
  · rw [createStunResponse_eq type tid attrs htid, hflat]
    simp [u16BE, readU16BE, List.getD]
    omega
  · intro attr hattr
    rw [createStunResponse_eq _ tid [attr] htid]
    simp [u16BE, hattr, STUN_BINDING_RESPONSE]

/-- C7 witness at a concrete type, transaction id and attribute list. -/
theorem createStunResponse_layout_witness :
    createStunResponse 257 [1, 2, 3, 4, 5, 6, 7, 8, 9, 10, 11, 12]
        [[0, 32, 0, 8, 0, 1, 245, 35, 234, 3, 247, 118]] =
      [1, 1, 0, 12, 33, 18, 164, 66, 1, 2, 3, 4, 5, 6, 7, 8, 9, 10, 11, 12,
       0, 32, 0, 8, 0, 1, 245, 35, 234, 3, 247, 118] := by
  have h := (createStunResponse_layout 257 [1, 2, 3, 4, 5, 6, 7, 8, 9, 10, 11, 12]
    [[0, 32, 0, 8, 0, 1, 245, 35, 234, 3, 247, 118]] (by decide) (by decide)).1
  rw [h]
  decide

/-- C10: the config-driven constructor throws exactly when a configuration
value is non-positive, and otherwise builds an Open limiter with an empty
timestamp sequence. -/
theorem rateLimiter_construct_validation (m t p : Int) :
    ((m ≤ 0 ∨ t ≤ 0 ∨ p ≤ 0) ↔ ∃ e, RateLimiter.construct m t p = .error e) ∧
    (0 < m → 0 < t → 0 < p →
      RateLimiter.construct m t p =
        .ok { timestamps := [], isPaused := false, pauseExpiry := none,
              maxRequests := m.toNat, timeWindow := t.toNat,
              pauseDuration := p.toNat }) := by
  constructor
  · constructor
    · intro h
      unfold RateLimiter.construct
      by_cases hm : m ≤ 0
      · exact ⟨_, by rw [if_pos hm]⟩
      · by_cases ht : t ≤ 0
        · exact ⟨_, by rw [if_neg hm, if_pos ht]⟩
        · have hp : p ≤ 0 := by omega
          exact ⟨_, by rw [if_neg hm, if_neg ht, if_pos hp]⟩
    · rintro ⟨e, he⟩
      by_contra hno
      push_neg at hno
      obtain ⟨hm, ht, hp⟩ := hno
      unfold RateLimiter.construct at he
      rw [if_neg (by omega), if_neg (by omega), if_neg (by omega)] at he
      exact absurd he (by simp)
  · intro hm ht hp
    unfold RateLimiter.construct
    rw [if_neg (by omega), if_neg (by omega), if_neg (by omega)]
    rfl

/-- C10 witness: a rejected and an accepted concrete configuration. -/
theorem rateLimiter_construct_validation_witness :
    (∃ e, RateLimiter.construct 0 5 5 = .error e) ∧
    RateLimiter.construct 30 10000 3000 =
      .ok { timestamps := [], isPaused := false, pauseExpiry := none,
            maxRequests := 30, timeWindow := 10000, pauseDuration := 3000 } :=
  ⟨(rateLimiter_construct_validation 0 5 5).1.mp (Or.inl (by decide)),
   (rateLimiter_construct_validation 30 10000 3000).2
     (by decide) (by decide) (by decide)⟩

/-- A pruning step inside the window keeps every recorded timestamp. -/
lemma check_open_in_window (r : RateLimiter) (now : Nat)
    (hopen : r.isPaused = false)
    (hwin : ∀ x ∈ r.timestamps, now - x < r.timeWindow) :
    r.check now =
      if r.timestamps.length + 1 > r.maxRequests then
        (false, { r with timestamps := r.timestamps ++ [now], isPaused := true,
                         pauseExpiry := some (now + r.pauseDuration) })
      else (true, { r with timestamps := r.timestamps ++ [now] }) := by
  unfold RateLimiter.check
  rw [if_neg (by simp [hopen])]
  have hfilter : (r.timestamps.filter fun t => now - t < r.timeWindow) = r.timestamps :=
    List.filter_eq_self.mpr (fun x hx => by simpa using hwin x hx)
  simp [hfilter]

/-- C2 counterexample: with `maxRequests = 1`, two checks at instants 0 and 1
reach a state that is paused while holding two timestamps — the sequence is
non-empty during the pause. -/
theorem rateLimiter_paused_nonempty_counterexample :
    ((((RateLimiter.init 1 10000 3000).check 0).2.check 1).2.isPaused = true) ∧
    ((((RateLimiter.init 1 10000 3000).check 0).2.check 1).2.timestamps ≠ []) := by
  decide

/-- C2 (amended): while paused, a check adds nothing (the state is returned
unchanged and the call is rejected); the timestamp sequence is cleared when
the scheduled un-pause callback fires; but a pause entered by tripping the
limit starts with a NON-empty sequence — the recorded timestamps are kept
until the callback clears them. -/
theorem rateLimiter_paused_invariant :
    (∀ (r : RateLimiter) (now : Nat), r.isPaused = true →
      r.check now = (false, r)) ∧
    (∀ r : RateLimiter, r.unpause.timestamps = [] ∧ r.unpause.isPaused = false) ∧
    (∀ (r : RateLimiter) (now : Nat), r.isPaused = false →
      (r.check now).2.isPaused = true → (r.check now).2.timestamps ≠ []) := by
  refine ⟨?_, ?_, ?_⟩
  · intro r now h
    unfold RateLimiter.check
    rw [if_pos h]
  · intro r
    exact ⟨rfl, rfl⟩
  · intro r now hopen hp
    unfold RateLimiter.check at hp ⊢
    rw [if_neg (by simp [hopen])] at hp ⊢
    by_cases hc : ((r.timestamps.filter fun t => now - t < r.timeWindow) ++ [now]).length >
        r.maxRequests
    · rw [if_pos hc]
      simp
    · rw [if_neg hc] at hp
      simp [hopen] at hp

/-- C2 witness: a paused state rejects unchanged; un-pausing clears; a
tripping check yields a non-empty paused sequence. -/
theorem rateLimiter_paused_invariant_witness :
    ((⟨[3], true, some 9, 2, 10, 5⟩ : RateLimiter).check 7 =
      (false, (⟨[3], true, some 9, 2, 10, 5⟩ : RateLimiter))) ∧
    (⟨[3], true, some 9, 2, 10, 5⟩ : RateLimiter).unpause.timestamps = [] ∧
    ((⟨[0], false, none, 1, 10000, 3000⟩ : RateLimiter).check 1).2.timestamps ≠ [] :=
  ⟨rateLimiter_paused_invariant.1 ⟨[3], true, some 9, 2, 10, 5⟩ 7 rfl,
   (rateLimiter_paused_invariant.2.1 ⟨[3], true, some 9, 2, 10, 5⟩).1,
   rateLimiter_paused_invariant.2.2 ⟨[0], false, none, 1, 10000, 3000⟩ 1 rfl
     (by decide)⟩

/-- `check` on a literal Open state whose timestamps all lie inside the
window: nothing is pruned, `now` is appended, and the limit test decides
the outcome. -/
lemma check_state_in_window (pre : List Nat) (N window pause now : Nat)
    (hwin : ∀ x ∈ pre, now - x < window) :
    RateLimiter.check ⟨pre, false, none, N, window, pause⟩ now =
      if pre.length + 1 > N then
        (false, ⟨pre ++ [now], true, some (now + pause), N, window, pause⟩)
      else (true, ⟨pre ++ [now], false, none, N, window, pause⟩) := by
  unfold RateLimiter.check
  rw [if_neg (by simp)]
  have hfilter : (pre.filter fun t => now - t < window) = pre :=
    List.filter_eq_self.mpr (fun x hx => by simpa using hwin x hx)
  simp only [hfilter, List.length_append, List.length_cons, List.length_nil]

lemma checkRun_nil (r : RateLimiter) : r.checkRun [] = ([], r) := rfl

lemma checkRun_cons (r : RateLimiter) (t : Nat) (ts : List Nat) :
    r.checkRun (t :: ts) =
      ((r.check t).1 :: ((r.check t).2.checkRun ts).1,
       ((r.check t).2.checkRun ts).2) := rfl

/-- Burst induction: from an Open state holding `pre` (all inside the
window), running the remaining checks of a burst of `N + 1` admits until the
count reaches `N` and rejects the tripping call, entering the pause. -/
lemma checkRun_burst (N window pause t0 : Nat) :
    ∀ (times pre : List Nat),
      (∀ x ∈ pre, t0 ≤ x ∧ x < t0 + window) →
      (∀ x ∈ times, t0 ≤ x ∧ x < t0 + window) →
      pre.length + times.length = N + 1 → pre.length ≤ N →
      (RateLimiter.checkRun ⟨pre, false, none, N, window, pause⟩ times).1 =
        List.replicate (N - pre.length) true ++ [false] ∧
      (RateLimiter.checkRun ⟨pre, false, none, N, window, pause⟩
          times).2.isPaused = true := by
  intro times
  induction times with
  | nil =>
    intro pre hpre htimes hlen hle
    simp at hlen
    omega
  | cons t ts ih =>
    intro pre hpre htimes hlen hle
    have hwin : ∀ x ∈ pre, t - x < window := by
      intro x hx
      have h1 := hpre x hx
      have h2 := htimes t (by simp)
      omega
    have hstep := check_state_in_window pre N window pause t hwin
    by_cases hover : pre.length + 1 > N
    · have hpreN : pre.length = N := by omega
      have hts : ts = [] := by
        have hlen0 : ts.length = 0 := by
          simp only [List.length_cons] at hlen
          omega
        exact List.eq_nil_of_length_eq_zero hlen0
      subst hts
      rw [if_pos hover] at hstep
      rw [checkRun_cons, hstep]
      simp [checkRun_nil, hpreN]
    · rw [if_neg hover] at hstep
      have hrec := ih (pre ++ [t])
        (by
          intro x hx
          rcases List.mem_append.mp hx with h | h
          · exact hpre x h
          · have hxt : x = t := by simpa using h
            simpa [hxt] using htimes t (by simp))
        (fun x hx => htimes x (by simp [hx]))
        (by simp only [List.length_append, List.length_cons, List.length_nil] at hlen ⊢; omega)
        (by simp only [List.length_append, List.length_cons, List.length_nil]; omega)
      rw [checkRun_cons, hstep]
      refine ⟨?_, by simpa using hrec.2⟩
      simp only []
      rw [hrec.1]
      have hk : N - pre.length = (N - (pre ++ [t]).length) + 1 := by
        simp only [List.length_append, List.length_cons, List.length_nil]
        omega
      rw [hk, List.replicate_succ]
      simp

/-- C3: in the Open state a check prunes the timestamps older than the
window relative to `now`, appends `now`, rejects — entering the pause —
exactly when the resulting count exceeds `maxRequests`, and admits
otherwise; consequently a burst of `N + 1` checks inside one window from a
fresh limiter with `maxRequests = N` admits the first `N` and rejects the
`(N+1)`th, which enters the pause. -/
theorem rateLimiter_open_step_burst :
    (∀ (r : RateLimiter) (now : Nat), r.isPaused = false →
      (r.check now).2.timestamps =
        (r.timestamps.filter fun t => now - t < r.timeWindow) ++ [now] ∧
      (((r.check now).1 = true) ↔
        ((r.timestamps.filter fun t => now - t < r.timeWindow) ++ [now]).length ≤
          r.maxRequests) ∧
      (((r.check now).2.isPaused = true) ↔
        ((r.timestamps.filter fun t => now - t < r.timeWindow) ++ [now]).length >
          r.maxRequests)) ∧
    (∀ (N window pause t0 : Nat) (times : List Nat),
      times.length = N + 1 → (∀ x ∈ times, t0 ≤ x ∧ x < t0 + window) →
      ((RateLimiter.init N window pause).checkRun times).1 =
        List.replicate N true ++ [false] ∧
      ((RateLimiter.init N window pause).checkRun times).2.isPaused = true) := by
  constructor
  · intro r now hopen
    unfold RateLimiter.check
    rw [if_neg (by simp [hopen])]
    by_cases hc : ((r.timestamps.filter fun t => now - t < r.timeWindow) ++
        [now]).length > r.maxRequests
    · rw [if_pos hc]
      refine ⟨rfl, ?_, ?_⟩
      · simp only [Bool.false_eq_true, false_iff]
        omega
      · simpa using hc
    · rw [if_neg hc]
      refine ⟨rfl, ?_, ?_⟩
      · simp only [true_iff]
        omega
      · simp only [hopen, Bool.false_eq_true, false_iff]
        omega
  · intro N window pause t0 times hlen hin
    have h := checkRun_burst N window pause t0 times [] (by simp) hin
      (by simpa using hlen) (by simp)
    simpa [RateLimiter.init] using h

/-- C3 witness: a single Open-state check and a concrete 2-call burst with
`maxRequests = 1`. -/
theorem rateLimiter_open_step_burst_witness :
    (((⟨[5], false, none, 2, 10, 3⟩ : RateLimiter).check 6).2.timestamps =
        ([5].filter fun t => 6 - t < 10) ++ [6] ∧
      ((((⟨[5], false, none, 2, 10, 3⟩ : RateLimiter).check 6).1 = true) ↔
        (([5].filter fun t => 6 - t < 10) ++ [6]).length ≤ 2) ∧
      ((((⟨[5], false, none, 2, 10, 3⟩ : RateLimiter).check 6).2.isPaused = true) ↔
        (([5].filter fun t => 6 - t < 10) ++ [6]).length > 2)) ∧
    (((RateLimiter.init 1 10 3).checkRun [0, 1]).1 =
        List.replicate 1 true ++ [false] ∧
      ((RateLimiter.init 1 10 3).checkRun [0, 1]).2.isPaused = true) :=
  ⟨rateLimiter_open_step_burst.1 ⟨[5], false, none, 2, 10, 3⟩ 6 rfl,
   rateLimiter_open_step_burst.2 1 10 3 0 [0, 1] (by decide) (by decide)⟩

/-- C4: while paused every check is rejected with the state unchanged — for
every `now`, so in particular throughout the pause; tripping the limit at
instant `now` schedules the un-pause callback at exactly
`now + pauseDuration`; the callback (a pure time-triggered transition,
independent of traffic) clears the timestamps and re-opens the limiter; and
a check right after the callback is admitted whenever `maxRequests ≥ 1` —
as from a fresh limiter. -/
theorem rateLimiter_pause_exact_duration :
    (∀ (r : RateLimiter) (now : Nat), r.isPaused = true →
      (r.check now).1 = false ∧ (r.check now).2 = r) ∧
    (∀ (r : RateLimiter) (now : Nat), r.isPaused = false →
      (r.check now).2.isPaused = true →
      (r.check now).2.pauseExpiry = some (now + r.pauseDuration)) ∧
    (∀ r : RateLimiter, r.unpause.isPaused = false ∧ r.unpause.timestamps = []) ∧
    (∀ (r : RateLimiter) (now : Nat), 1 ≤ r.maxRequests →
      (r.unpause.check now).1 = true) := by
  refine ⟨?_, ?_, ?_, ?_⟩
  · intro r now h
    unfold RateLimiter.check
    rw [if_pos h]
    exact ⟨rfl, rfl⟩
  · intro r now hopen hp
    unfold RateLimiter.check at hp ⊢
    rw [if_neg (by simp [hopen])] at hp ⊢
    by_cases hc : ((r.timestamps.filter fun t => now - t < r.timeWindow) ++
        [now]).length > r.maxRequests
    · rw [if_pos hc]
    · rw [if_neg hc] at hp
      simp [hopen] at hp
  · intro r
    exact ⟨rfl, rfl⟩
  · intro r now hmax
    unfold RateLimiter.check
    rw [if_neg (by simp [RateLimiter.unpause])]
    rw [if_neg (by simp [RateLimiter.unpause]; omega)]

/-- C4 witness: a paused state rejects; a tripping check at instant 1 with
`pauseDurationMs = 3000` schedules the un-pause at instant 3001; un-pausing
re-opens; and the next check is admitted. -/
theorem rateLimiter_pause_exact_duration_witness :
    ((⟨[3, 4], true, some 9, 2, 10, 5⟩ : RateLimiter).check 8).1 = false ∧
    ((⟨[0], false, none, 1, 10000, 3000⟩ : RateLimiter).check 1).2.pauseExpiry =
      some (1 + 3000) ∧
    (⟨[3, 4], true, some 9, 2, 10, 5⟩ : RateLimiter).unpause.isPaused = false ∧
    ((⟨[9, 9], true, some 0, 2, 10, 5⟩ : RateLimiter).unpause.check 42).1 = true :=
  ⟨(rateLimiter_pause_exact_duration.1 ⟨[3, 4], true, some 9, 2, 10, 5⟩ 8 rfl).1,
   rateLimiter_pause_exact_duration.2.1 ⟨[0], false, none, 1, 10000, 3000⟩ 1 rfl
     (by decide),
   (rateLimiter_pause_exact_duration.2.2.1 ⟨[3, 4], true, some 9, 2, 10, 5⟩).1,
   rateLimiter_pause_exact_duration.2.2.2 ⟨[9, 9], true, some 0, 2, 10, 5⟩ 42
     (by decide)⟩
